import Mathlib

/-!
Verification of the media playback and frame-sampling pipeline of
`window_code.py` (`SimpleVideoPlayer` and `FrameGrabberWorker`).

The embedding models frames by their 0-based index in the source (pixel
payloads, colour conversion and `QImage` construction are abstracted away:
they do not affect any property below).  Times and frame rates are
rationals.  The two worker loops are modelled one iteration at a time as
pure step functions on explicit state records; external nondeterminism
(backend decode success, inference results, latencies) enters as oracle
parameters.
-/

namespace Yolo8Cell

/-- An OpenCV `cv2.VideoCapture` handle as `window_code.py` uses it.
`pos` models `CAP_PROP_POS_FRAMES`: the 0-based index of the frame that
will be decoded next; OpenCV advances it on every successful `grab`/`read`,
so after reading the frame of index `k` the reported position is `k + 1`.
`grabbed` holds the frame taken by the last successful `grab()`, which
`retrieve()` returns. -/
structure VideoCapture where
  opened : Bool
  pos : Nat
  total : Nat
  grabbed : Option Nat
deriving Repr, DecidableEq

/-- Model of `cap.isOpened()`. -/
def VideoCapture.isOpened (c : VideoCapture) : Bool := c.opened

/-- Model of `cap.set(cv2.CAP_PROP_POS_FRAMES, k)`: repositions the read cursor. -/
def VideoCapture.setPos (c : VideoCapture) (k : Nat) : VideoCapture :=
  { c with pos := k }

/-- Model of `cap.get(cv2.CAP_PROP_POS_FRAMES)`. -/
def VideoCapture.getPos (c : VideoCapture) : Nat := c.pos

/-- Model of `cap.grab()`: succeeds when the handle is open, the backend decode
succeeds (`backendOk`; `false` injects a transient decode failure) and the
cursor is before end of stream.  On success the cursor advances and the
grabbed frame is held for `retrieve()`. -/
def VideoCapture.grab (c : VideoCapture) (backendOk : Bool) :
    VideoCapture × Bool :=
  if c.opened && backendOk && decide (c.pos < c.total) then
    ({ c with pos := c.pos + 1, grabbed := some c.pos }, true)
  else
    ({ c with grabbed := none }, false)

/-- Model of `cap.retrieve()`: returns the frame of the last successful `grab()`,
or `(False, None)` when there is none. -/
def VideoCapture.retrieve (c : VideoCapture) : Bool × Option Nat :=
  match c.grabbed with
  | some f => (true, some f)
  | none => (false, none)

/-- Model of `cap.release()`. -/
def VideoCapture.release (c : VideoCapture) : VideoCapture :=
  { c with opened := false }

/-- The mutable state of `SimpleVideoPlayer` (`__init__`): the playing
flag, the capture handle, the mutex-guarded current-frame slot (the frame
index it holds, or `none`), the cached video properties, the paused flag
and the `threading.Event` used as the pause gate (`pause_event = true`
models the event being set, i.e. the gate open). -/
structure PlayerState where
  playing : Bool
  cap : Option VideoCapture
  current_frame : Option Nat
  total_frames : Nat
  current_frame_num : Nat
  fps : ℚ
  duration : ℚ
  paused : Bool
  pause_event : Bool
deriving Repr, DecidableEq

/-- The signals `SimpleVideoPlayer` emits.  Status message texts are
abstracted away. -/
inductive PlayerEvent where
  | frame_ready (frame : Nat)
  | status_update
  | progress_updated (current : Nat) (total : Nat) (time : ℚ)
  | finished
deriving Repr, DecidableEq

/-- Model of `SimpleVideoPlayer.pause`: set `paused` and clear the pause event;
nothing else is touched (no release, no reseek, thread kept alive). -/
def PlayerState.pause (s : PlayerState) : PlayerState :=
  { s with paused := true, pause_event := false }

/-- Model of `SimpleVideoPlayer.resume`.  `threadAlive` is whether `play_thread`
is alive.  The returned `Bool` records whether a playback thread was
started (`resume` never starts one; only `play_video`/`play_camera` do).
When the thread is dead, the capture is `None` and no current frame
exists, the code only resets the flags and returns early; in every other
case it resets the same flags. -/
def PlayerState.resume (s : PlayerState) (threadAlive : Bool) :
    PlayerState × Bool :=
  if threadAlive = false ∧ s.cap = none ∧ s.current_frame = none then
    ({ s with paused := false, pause_event := true }, false)
  else
    ({ s with paused := false, pause_event := true }, false)

/-- Model of `SimpleVideoPlayer.get_current_frame`: under the frame mutex, return a
copy of the slot (copying is the identity on our abstract frames), or
`None` when the slot is empty. -/
def PlayerState.get_current_frame (s : PlayerState) : Option Nat :=
  s.current_frame

/-- The primitive actions `SimpleVideoPlayer.stop` performs. -/
inductive StopAction where
  | set_playing_false
  | set_pause_event
  | release_cap
  | join_thread
  | emit_finished
deriving Repr, DecidableEq, BEq

/-- The sequence of actions `SimpleVideoPlayer.stop` performs, in program
order: clear `playing`, set the pause event, release the capture when one
is held, join the play thread (timeout 1.0 s) when it is alive, emit
`finished`. -/
def stop_actions (s : PlayerState) (threadAlive : Bool) : List StopAction :=
  [StopAction.set_playing_false, StopAction.set_pause_event]
    ++ (if s.cap.isSome then [StopAction.release_cap] else [])
    ++ (if threadAlive then [StopAction.join_thread] else [])
    ++ [StopAction.emit_finished]

/-- The state effect of `SimpleVideoPlayer.stop`: `playing := False`, the
pause event set, the capture released and set to `None`, `finished`
emitted.  The current-frame slot is not written. -/
def PlayerState.stop (s : PlayerState) : PlayerState × List PlayerEvent :=
  ({ s with playing := false, pause_event := true, cap := none },
   [PlayerEvent.finished])

/-- Model of `SimpleVideoPlayer.seek_frame` (with `_use_grab = True`): bail out when
there is no open capture; otherwise `cap.set(CAP_PROP_POS_FRAMES,
max(0, int(target)))`, `grab`, `retrieve`; if the read failed return (the
repositioning has already happened on the shared handle); otherwise copy
the frame into the slot, set `current_frame_num` from
`cap.get(CAP_PROP_POS_FRAMES)` and emit the progress and display signals.
The paused flag is never consulted. -/
def PlayerState.seek_frame (s : PlayerState) (target : Int) :
    PlayerState × List PlayerEvent :=
  match s.cap with
  | none => (s, [])
  | some c =>
    if c.isOpened = false then (s, [])
    else
      let c1 := c.setPos (max 0 target).toNat
      let c2 := (c1.grab true).1
      match c2.retrieve with
      | (false, _) => ({ s with cap := some c2 }, [])
      | (true, none) => ({ s with cap := some c2 }, [])
      | (true, some f) =>
        let num := c2.getPos
        let t : ℚ := (num : ℚ) / max 1 s.fps
        ({ s with cap := some c2, current_frame := some f,
                  current_frame_num := num },
         [PlayerEvent.progress_updated num s.total_frames t,
          PlayerEvent.frame_ready f])

/-- Computes `frame_interval = 1.0 / self.fps if self.fps > 0 else 0.033`. -/
def frame_interval (fps : ℚ) : ℚ :=
  if 0 < fps then 1 / fps else 33 / 1000

/-- Model of `threading.Event.wait(timeout=t)` in the absence of a concurrent
`set`: when the flag is already set the call returns immediately (time
blocked is 0), otherwise it blocks for the whole timeout. -/
def event_wait_time (flag : Bool) (timeout : ℚ) : ℚ :=
  if flag then 0 else timeout

/-- How one iteration of a playback loop ended. -/
inductive TickOutcome where
  | exited
  | blocked
  | continued
deriving Repr, DecidableEq

/-- Result of one decode-loop iteration: the updated player state, the
signals emitted during the iteration, how the iteration ended, and the
time actually spent in the end-of-iteration pacing wait. -/
structure StepResult where
  state : PlayerState
  events : List PlayerEvent
  outcome : TickOutcome
  sleep : ℚ
deriving Repr, DecidableEq

/-- One iteration of the `while self.playing` loop of
`SimpleVideoPlayer._video_playback_simple` (grab mode, `_use_grab = True`).
`backendOk` is whether the backend decode succeeds this iteration;
`elapsed` is the wall time the body consumed before the pacing wait.
If `playing` is false the loop exits; if the pause event is cleared the
iteration blocks on the gate; a capture of `None` mid-loop raises
`AttributeError`, which the enclosing `except` turns into loop
abandonment.  A failed `grab` or `retrieve` (end of stream or transient
failure) seeks the cursor to 0, zeroes `current_frame_num` and continues
without emitting anything; a successful read copies the frame into the
slot, refreshes `current_frame_num` from the cursor, emits progress then
the display frame, and finally performs
`self._pause_event.wait(timeout=max(0.0, frame_interval - elapsed))`. -/
def decode_tick (s : PlayerState) (backendOk : Bool) (elapsed : ℚ) :
    StepResult :=
  if s.playing = false then ⟨s, [], TickOutcome.exited, 0⟩
  else if s.pause_event = false then ⟨s, [], TickOutcome.blocked, 0⟩
  else
    match s.cap with
    | none => ⟨s, [PlayerEvent.status_update], TickOutcome.exited, 0⟩
    | some c =>
      let c1 := (c.grab backendOk).1
      let ok := (c.grab backendOk).2
      if ok = false then
        ⟨{ s with cap := some (c1.setPos 0), current_frame_num := 0 },
         [], TickOutcome.continued, 0⟩
      else
        match c1.retrieve with
        | (false, _) =>
          ⟨{ s with cap := some (c1.setPos 0), current_frame_num := 0 },
           [], TickOutcome.continued, 0⟩
        | (true, none) =>
          ⟨{ s with cap := some (c1.setPos 0), current_frame_num := 0 },
           [], TickOutcome.continued, 0⟩
        | (true, some f) =>
          let num := c1.getPos
          let t : ℚ := if 0 < s.fps then (num : ℚ) / s.fps else 0
          let wait := max 0 (frame_interval s.fps - elapsed)
          ⟨{ s with cap := some c1, current_frame := some f,
                    current_frame_num := num },
           [PlayerEvent.progress_updated num s.total_frames t,
            PlayerEvent.frame_ready f],
           TickOutcome.continued,
           event_wait_time s.pause_event wait⟩

/-- The mutable state of `FrameGrabberWorker` (`__init__` /
`start_grabbing`): the processing flag, the sampling interval
(`grab_interval`, "every Nth observed frame"), the observed-frame counter
(`frame_count`) and the accumulated statistics. -/
structure GrabberState where
  processing : Bool
  grab_interval : Nat
  frame_count : Nat
  total_frames_processed : Nat
  total_detections : Nat
  total_inference_time : ℚ
  last_frame_time : ℚ
deriving Repr, DecidableEq

/-- What `self.yolo_module.process_frame(frame)` did: returned a result
dictionary reporting `detection_count` detections, or raised an
exception. -/
inductive InferOutcome where
  | ok (detection_count : Nat)
  | raises
deriving Repr, DecidableEq

/-- The signals `FrameGrabberWorker` emits.  Message texts and the full
statistics dictionary are abstracted to the counters the code computes. -/
inductive GrabberEvent where
  | frame_processed (frame : Nat)
  | processing_complete (detection_count : Nat) (total_detections : Nat)
      (total_processed : Nat)
  | status_update
  | error_occurred
  | finished
deriving Repr, DecidableEq

/-- Result of one sampling-loop iteration: updated state, emitted signals,
whether `process_frame` was invoked on the inference module this
iteration, and whether the loop proceeds to another iteration. -/
structure GrabResult where
  state : GrabberState
  events : List GrabberEvent
  inference_called : Bool
  continues : Bool
deriving Repr, DecidableEq

/-- Fresh `FrameGrabberWorker.__init__` counter state. -/
def grabber_init : GrabberState :=
  { processing := false, grab_interval := 5, frame_count := 0,
    total_frames_processed := 0, total_detections := 0,
    total_inference_time := 0, last_frame_time := 0 }

/-- Model of `FrameGrabberWorker.start_grabbing(grab_interval)`: store the
interval, set `processing`, reset the observed-frame counter and all
statistics, and start the grab thread (whose iterations `grab_tick`
models). -/
def start_grabbing (g : GrabberState) (interval : Nat) (now : ℚ) :
    GrabberState :=
  { g with processing := true, grab_interval := interval,
           frame_count := 0, total_frames_processed := 0,
           total_detections := 0, total_inference_time := 0,
           last_frame_time := now }

/-- One iteration of the `while self.processing` loop of
`FrameGrabberWorker._grab_frames`.  `frame` is what
`video_player.get_current_frame()` returned; `hasModule` is whether
`self.yolo_module` is set (with a `process_frame` attribute); `infer` is
the inference call's outcome and `latency` its measured duration.
An empty slot sleeps briefly and retries without counting; otherwise the
observed-frame counter is incremented and, exactly when it is a multiple
of `grab_interval` and a module is present, the frame is submitted.  An
exception anywhere in the submission block is caught there, reported via
`error_occurred`, and the loop continues; a successful call updates the
running totals and emits the processed frame and a statistics snapshot. -/
def grab_tick (g : GrabberState) (frame : Option Nat) (hasModule : Bool)
    (infer : InferOutcome) (latency : ℚ) : GrabResult :=
  if g.processing = false then ⟨g, [], false, false⟩
  else
    match frame with
    | none => ⟨g, [], false, true⟩
    | some f =>
      let g1 := { g with frame_count := g.frame_count + 1 }
      if g1.frame_count % g1.grab_interval == 0 then
        if hasModule then
          match infer with
          | InferOutcome.raises =>
            ⟨g1, [GrabberEvent.error_occurred], true, true⟩
          | InferOutcome.ok d =>
            let g2 := { g1 with
              total_inference_time := g1.total_inference_time + latency,
              total_frames_processed := g1.total_frames_processed + 1,
              total_detections := g1.total_detections + d }
            ⟨g2,
             [GrabberEvent.frame_processed f,
              GrabberEvent.processing_complete d g2.total_detections
                g2.total_frames_processed],
             true, true⟩
        else ⟨g1, [], false, true⟩
      else ⟨g1, [], false, true⟩

/-- Model of `FrameGrabberWorker.stop_grabbing`: clear `processing`, join the grab
thread (timeout 1.0 s), emit `finished`. -/
def stop_grabbing (g : GrabberState) : GrabberState × List GrabberEvent :=
  ({ g with processing := false }, [GrabberEvent.finished])

/-- Run successive sampling iterations over a list of observed frames
(inference module present, each call succeeding) and record, for each
iteration that submitted a frame to inference, the value of the
observed-frame counter at that submission. -/
def run_submissions (g : GrabberState) : List Nat → List Nat
  | [] => []
  | f :: fs =>
    let r := grab_tick g (some f) true (InferOutcome.ok 0) 0
    (if r.inference_called then [r.state.frame_count] else [])
      ++ run_submissions r.state fs

/-- The `current` argument of a `progress_updated` signal, when the event
is one. -/
def progress_index : PlayerEvent → Option Nat
  | PlayerEvent.progress_updated current _ _ => some current
  | _ => none

/-- The frame carried by a `frame_ready` signal, when the event is one. -/
def ready_frame : PlayerEvent → Option Nat
  | PlayerEvent.frame_ready f => some f
  | _ => none

/-- A mid-playback sample state: an open 10-frame source whose read
cursor is at frame 3, 30 fps, playing with the pause gate open. -/
def sample_playing : PlayerState :=
  { playing := true, cap := some ⟨true, 3, 10, none⟩,
    current_frame := some 2, total_frames := 10, current_frame_num := 3,
    fps := 30, duration := 0, paused := false, pause_event := true }

/-- C1.  The claim says `stop()` joins the decode thread before the
MediaSource handle is released.  The code does the opposite: at a state
holding an open capture, with the decode thread alive, `stop()`'s action
sequence performs `self.cap.release()` strictly BEFORE
`self.play_thread.join(timeout=1.0)`. -/
theorem c1_stop_releases_before_join :
    stop_actions sample_playing true
      = [StopAction.set_playing_false, StopAction.set_pause_event,
         StopAction.release_cap, StopAction.join_thread,
         StopAction.emit_finished]
    ∧ List.indexOf StopAction.release_cap (stop_actions sample_playing true)
        < List.indexOf StopAction.join_thread (stop_actions sample_playing true) := by
  decide

/-- C2.  While playing with the gate open, when the read cursor of the
open file source has reached end of stream, the decode iteration seeks
the cursor back to frame index 0, zeroes the frame counter and continues
(outcome `continued`, no exit), emitting nothing; since this holds for
every such state it recurs on every subsequent end-of-stream. -/
theorem c2_end_of_stream_wraps_to_zero (s : PlayerState) (c : VideoCapture)
    (b : Bool) (e : ℚ)
    (hp : s.playing = true) (hg : s.pause_event = true)
    (hc : s.cap = some c) (ht : c.total ≤ c.pos) :
    decode_tick s b e
      = ⟨{ s with cap := some { c with pos := 0, grabbed := none },
                  current_frame_num := 0 }, [], TickOutcome.continued, 0⟩ := by
  unfold decode_tick
  rw [hp, hg, hc]
  simp [VideoCapture.grab, VideoCapture.setPos, Nat.not_lt.mpr ht]

theorem c2_witness :
    decode_tick
      { playing := true, cap := some ⟨true, 10, 10, none⟩,
        current_frame := some 9, total_frames := 10, current_frame_num := 10,
        fps := 30, duration := 0, paused := false, pause_event := true }
      true 0
      = ⟨{ playing := true, cap := some ⟨true, 0, 10, none⟩,
           current_frame := some 9, total_frames := 10, current_frame_num := 0,
           fps := 30, duration := 0, paused := false, pause_event := true },
         [], TickOutcome.continued, 0⟩ :=
  c2_end_of_stream_wraps_to_zero _ ⟨true, 10, 10, none⟩ true 0
    rfl rfl rfl (by decide)

/-- C6 counterexample.  The claim says that after `stop()` a subsequent
`get_current_frame()` returns `None`.  At a state whose slot holds frame
7, `stop()` leaves the slot untouched and `get_current_frame()` still
returns frame 7. -/
theorem c6_counterexample :
    (PlayerState.stop
      { playing := true, cap := some ⟨true, 8, 10, none⟩,
        current_frame := some 7, total_frames := 10, current_frame_num := 8,
        fps := 30, duration := 0, paused := false,
        pause_event := true }).1.get_current_frame = some 7
    ∧ (PlayerState.stop
      { playing := true, cap := some ⟨true, 8, 10, none⟩,
        current_frame := some 7, total_frames := 10, current_frame_num := 8,
        fps := 30, duration := 0, paused := false,
        pause_event := true }).1.get_current_frame ≠ none := by
  decide

/-- C6 amended.  After `stop()` returns, the capture handle has been
released (`cap = None`), `playing` is false, the gate is open and
`finished` was emitted — but the current-frame slot is NOT cleared:
`get_current_frame()` returns exactly what it returned before the stop
(the last decoded frame, or `None` only if none was ever decoded). -/
theorem c6_stop_releases_but_keeps_slot (s : PlayerState) :
    (s.stop).1.cap = none ∧ (s.stop).1.playing = false ∧
    (s.stop).1.pause_event = true ∧
    (s.stop).1.get_current_frame = s.get_current_frame ∧
    (s.stop).2 = [PlayerEvent.finished] := by
  simp [PlayerState.stop, PlayerState.get_current_frame]

/-- C7.  The claim says each decode iteration sleeps for
`max(0, 1/frame_rate - elapsed)` before the next iteration.  The code
passes that value as a timeout to `self._pause_event.wait`, but while
playing the event is set, so the wait returns immediately: at the sample
playing state (30 fps, `elapsed = 0`) the iteration's actual sleep is 0
even though `max(0, 1/frame_rate - elapsed) = 1/30 ≠ 0`. -/
theorem c7_pacing_wait_returns_immediately :
    (decode_tick sample_playing true 0).sleep = 0
    ∧ max 0 (frame_interval sample_playing.fps - 0) = 1 / 30
    ∧ (1 / 30 : ℚ) ≠ 0 := by
  refine ⟨by decide, ?_, by norm_num⟩
  norm_num [sample_playing, frame_interval]

/-- C9.  When the playback thread is not alive, the capture handle is
`None` and no current frame exists, `resume()` only sets `paused` to
false and opens the pause gate; it changes nothing else and starts no
playback thread (the returned flag is false — only
`play_video`/`play_camera` start one). -/
theorem c9_resume_dead_thread_only_opens_gate (s : PlayerState)
    (hc : s.cap = none) (hf : s.current_frame = none) :
    (s.resume false).1 = { s with paused := false, pause_event := true }
    ∧ (s.resume false).2 = false := by
  simp [PlayerState.resume, hc, hf]

theorem c9_witness :
    (PlayerState.resume
      { playing := false, cap := none, current_frame := none,
        total_frames := 0, current_frame_num := 0, fps := 30,
        duration := 0, paused := true, pause_event := false } false).1
      = { playing := false, cap := none, current_frame := none,
          total_frames := 0, current_frame_num := 0, fps := 30,
          duration := 0, paused := false, pause_event := true }
    ∧ (PlayerState.resume
      { playing := false, cap := none, current_frame := none,
        total_frames := 0, current_frame_num := 0, fps := 30,
        duration := 0, paused := true, pause_event := false } false).2
      = false :=
  c9_resume_dead_thread_only_opens_gate _ rfl rfl

/-- C10.  In the file decode loop a transient mid-file read failure
(backend failure with the cursor still strictly before end of stream) is
handled exactly like end-of-stream: the cursor is seeked to frame 0, the
frame counter zeroed, and the loop continues — emitting no error or
status event for the failure. -/
theorem c10_transient_failure_restarts_from_zero (s : PlayerState)
    (c : VideoCapture) (e : ℚ)
    (hp : s.playing = true) (hg : s.pause_event = true)
    (hc : s.cap = some c) (_hlt : c.pos < c.total) :
    decode_tick s false e
      = ⟨{ s with cap := some { c with pos := 0, grabbed := none },
                  current_frame_num := 0 }, [], TickOutcome.continued, 0⟩ := by
  unfold decode_tick
  rw [hp, hg, hc]
  simp [VideoCapture.grab, VideoCapture.setPos]

theorem c10_witness :
    decode_tick
      { playing := true, cap := some ⟨true, 4, 10, none⟩,
        current_frame := some 3, total_frames := 10, current_frame_num := 4,
        fps := 30, duration := 0, paused := false, pause_event := true }
      false 0
      = ⟨{ playing := true, cap := some ⟨true, 0, 10, none⟩,
           current_frame := some 3, total_frames := 10, current_frame_num := 0,
           fps := 30, duration := 0, paused := false, pause_event := true },
         [], TickOutcome.continued, 0⟩ :=
  c10_transient_failure_restarts_from_zero _ ⟨true, 4, 10, none⟩ 0
    rfl rfl rfl (by decide)

/-- C3.  With the inference module set, a sampling iteration that
observes a frame submits it to the module exactly when the incremented
observed-frame counter is a multiple of the interval; and in the concrete
scenario — `start_grabbing(5)` followed by frames 1..20 observed
sequentially — submissions happen exactly at observed counts 5, 10, 15
and 20, i.e. 4 calls total. -/
theorem c3_submits_every_nth_frame :
    (∀ (g : GrabberState) (f : Nat) (inf : InferOutcome) (l : ℚ),
      g.processing = true → 0 < g.grab_interval →
      (grab_tick g (some f) true inf l).inference_called
        = ((g.frame_count + 1) % g.grab_interval == 0))
    ∧ run_submissions (start_grabbing grabber_init 5 0) (List.range' 1 20)
        = [5, 10, 15, 20]
    ∧ (run_submissions (start_grabbing grabber_init 5 0)
        (List.range' 1 20)).length = 4 := by
  refine ⟨?_, by decide, by decide⟩
  intro g f inf l hp _hi
  unfold grab_tick
  rw [hp]
  cases hm : (g.frame_count + 1) % g.grab_interval == 0 with
  | false => simp [hm]
  | true => cases inf <;> simp [hm]

theorem c3_witness :
    (grab_tick (start_grabbing grabber_init 5 0) (some 1) true
      (InferOutcome.ok 0) 0).inference_called
      = (((start_grabbing grabber_init 5 0).frame_count + 1)
          % (start_grabbing grabber_init 5 0).grab_interval == 0) :=
  c3_submits_every_nth_frame.1 (start_grabbing grabber_init 5 0) 1
    (InferOutcome.ok 0) 0 rfl (by decide)

/-- C4.  From a playing state with an open capture mid-stream whose
frame counter agrees with the read cursor, `pause()` immediately followed
by `resume()` starts no thread and changes nothing but the paused flag
and the gate (in particular the capture handle — identity, openness and
cursor — the slot and the counter are untouched, so nothing is released,
reopened or reseeked); the next decode iteration then reads the frame at
the cursor (not frame 0) and reports `current_frame_num + 1`. -/
theorem c4_pause_resume_keeps_position (s : PlayerState) (c : VideoCapture)
    (e : ℚ)
    (hp : s.playing = true) (hc : s.cap = some c) (ho : c.opened = true)
    (hlt : c.pos < c.total) (hn : s.current_frame_num = c.pos) :
    ((s.pause).resume true).2 = false
    ∧ ((s.pause).resume true).1
        = { s with paused := false, pause_event := true }
    ∧ (decode_tick ((s.pause).resume true).1 true e).outcome
        = TickOutcome.continued
    ∧ (decode_tick ((s.pause).resume true).1 true e).state.cap
        = some { c with pos := c.pos + 1, grabbed := some c.pos }
    ∧ (decode_tick ((s.pause).resume true).1 true e).state.current_frame
        = some c.pos
    ∧ (decode_tick ((s.pause).resume true).1 true e).state.current_frame_num
        = s.current_frame_num + 1 := by
  have hres : ((s.pause).resume true).1
      = { s with paused := false, pause_event := true } := by
    simp [PlayerState.pause, PlayerState.resume]
  have hres2 : ((s.pause).resume true).2 = false := by
    simp [PlayerState.pause, PlayerState.resume]
  refine ⟨hres2, hres, ?_⟩
  rw [hres]
  unfold decode_tick
  simp only [hp, hc]
  simp [VideoCapture.grab, ho, hlt, VideoCapture.retrieve,
    VideoCapture.getPos, hn]

theorem c4_witness :
    ((sample_playing.pause).resume true).2 = false
    ∧ ((sample_playing.pause).resume true).1
        = { sample_playing with paused := false, pause_event := true }
    ∧ (decode_tick ((sample_playing.pause).resume true).1 true 0).outcome
        = TickOutcome.continued
    ∧ (decode_tick ((sample_playing.pause).resume true).1 true 0).state.cap
        = some { opened := true, pos := 4, total := 10, grabbed := some 3 }
    ∧ (decode_tick
        ((sample_playing.pause).resume true).1 true 0).state.current_frame
        = some 3
    ∧ (decode_tick
        ((sample_playing.pause).resume true).1 true 0).state.current_frame_num
        = sample_playing.current_frame_num + 1 :=
  c4_pause_resume_keeps_position sample_playing ⟨true, 3, 10, none⟩ 0
    rfl rfl rfl (by decide) rfl

/-- C5 counterexample.  The claim says `seek(k)` emits a progress event
whose `current_index` equals `k`.  Seeking to frame 3 of an open
10-frame source reads and stores frame 3, but the emitted progress event
carries `current_index = 4` (the cv2 cursor position after the immediate
read), and `4 ≠ 3`. -/
theorem c5_counterexample :
    ((PlayerState.seek_frame
      { playing := true, cap := some ⟨true, 0, 10, none⟩,
        current_frame := none, total_frames := 10, current_frame_num := 0,
        fps := 30, duration := 0, paused := true, pause_event := false }
      3).2.filterMap progress_index = [4])
    ∧ ((PlayerState.seek_frame
      { playing := true, cap := some ⟨true, 0, 10, none⟩,
        current_frame := none, total_frames := 10, current_frame_num := 0,
        fps := 30, duration := 0, paused := true, pause_event := false }
      3).1.current_frame = some 3)
    ∧ (4 : Nat) ≠ 3 := by
  decide

/-- C5 amended.  For every open source and valid frame index `k`,
`seek_frame(k)` synchronously (independent of the decode loop, and with
no condition on the paused flag) repositions the source, performs one
immediate read, stores frame `k` into the slot and emits a progress event
and the display frame right away — but the progress event's
`current_index` equals `k + 1`, the read cursor after the immediate read,
not `k`. -/
theorem c5_seek_synchronous_progress_k_plus_one (s : PlayerState)
    (c : VideoCapture) (k : Nat)
    (hc : s.cap = some c) (ho : c.opened = true) (hk : k < c.total) :
    (s.seek_frame k).1.current_frame = some k
    ∧ (s.seek_frame k).1.current_frame_num = k + 1
    ∧ (s.seek_frame k).1.cap
        = some { c with pos := k + 1, grabbed := some k }
    ∧ (s.seek_frame k).2
        = [PlayerEvent.progress_updated (k + 1) s.total_frames
             (((k + 1 : Nat) : ℚ) / max 1 s.fps),
           PlayerEvent.frame_ready k] := by
  have hmax : (max 0 (k : Int)).toNat = k := by omega
  unfold PlayerState.seek_frame
  rw [hc]
  simp [VideoCapture.isOpened, ho, hmax, VideoCapture.setPos,
    VideoCapture.grab, hk, VideoCapture.retrieve, VideoCapture.getPos]

theorem c5_witness :
    (PlayerState.seek_frame sample_playing 7).1.current_frame = some 7
    ∧ (PlayerState.seek_frame sample_playing 7).1.current_frame_num = 8
    ∧ (PlayerState.seek_frame sample_playing 7).1.cap
        = some { opened := true, pos := 8, total := 10, grabbed := some 7 }
    ∧ (PlayerState.seek_frame sample_playing 7).2
        = [PlayerEvent.progress_updated 8 sample_playing.total_frames
             (((8 : Nat) : ℚ) / max 1 sample_playing.fps),
           PlayerEvent.frame_ready 7] :=
  c5_seek_synchronous_progress_k_plus_one sample_playing
    ⟨true, 3, 10, none⟩ 7 rfl rfl (by decide)

/-- C8.  In a sampling iteration that submits (counter a multiple of the
interval, module present), an exception raised by the inference call is
caught inside that iteration: the only emitted event is `error_occurred`,
the loop continues to the next iteration, and the session stays alive
(`processing` still true) with the statistics totals unchanged. -/
theorem c8_inference_exception_contained (g : GrabberState) (f : Nat)
    (l : ℚ)
    (hp : g.processing = true)
    (hm : ((g.frame_count + 1) % g.grab_interval == 0) = true) :
    (grab_tick g (some f) true InferOutcome.raises l).events
        = [GrabberEvent.error_occurred]
    ∧ (grab_tick g (some f) true InferOutcome.raises l).continues = true
    ∧ (grab_tick g (some f) true InferOutcome.raises l).state.processing
        = true
    ∧ (grab_tick g (some f) true
        InferOutcome.raises l).state.total_frames_processed
        = g.total_frames_processed := by
  unfold grab_tick
  rw [hp]
  simp [hm]

/-- A sampling session mid-run: interval 5, four frames already observed
since the last submission, one earlier successful submission recorded. -/
def sample_grabbing : GrabberState :=
  { processing := true, grab_interval := 5, frame_count := 4,
    total_frames_processed := 1, total_detections := 2,
    total_inference_time := 0, last_frame_time := 0 }

theorem c8_witness :
    (grab_tick sample_grabbing (some 9) true
      InferOutcome.raises 0).events = [GrabberEvent.error_occurred]
    ∧ (grab_tick sample_grabbing (some 9) true
        InferOutcome.raises 0).continues = true
    ∧ (grab_tick sample_grabbing (some 9) true
        InferOutcome.raises 0).state.processing = true
    ∧ (grab_tick sample_grabbing (some 9) true
        InferOutcome.raises 0).state.total_frames_processed
        = sample_grabbing.total_frames_processed :=
  c8_inference_exception_contained sample_grabbing 9 0
    rfl (by decide)

end Yolo8Cell
